import Mathlib

/-!
Verification of the Stokvela contribution/penalty rule engine.

This file shallowly embeds the rule-engine logic of the repository:
`stokvel/models.py` (PenaltyRule.calculate_penalty, is_active_for_date,
StokvelBankAccount.save), `stokvel/services.py` (ContributionRuleService,
PenaltyRuleService, BankAccountService), `stokvel/utils.py` (DateUtils,
PenaltyCalculator, StokvelReportUtils) and `finances/models.py`
(PaymentPeriod properties).

Modelling conventions:
- Python `Decimal` values are modelled as `ℚ` (exact arithmetic; all the
  operations used by the source — add, sub, mul, divide by 100 or by an
  expected total — are exact on two-decimal-place inputs).
- Python `date` is a year/month/day record with lexicographic order.
- Django querysets over a model table are lists kept in primary-key order;
  `filter` is `List.filter`, `.first()` is `List.head?`, `.update` and
  `save` are explicit rewrites of the list.
- Django raises `ValueError` when `None` is passed as the value of a
  `__gte` lookup; that outcome is modelled as an explicit error result.
- `stokvel/utils.py` references `models.Q` without ever binding the name
  `models`; the resulting `NameError` is likewise modelled as an explicit
  error result.
- Fixed string choice sets of the Django models are modelled as inductive
  enumerations; free-text metadata fields (names, descriptions) that no
  modelled branch reads are omitted.
-/

/-- Python `datetime.date`: year, month, day compared lexicographically. -/
structure Date where
  year : Nat
  month : Nat
  day : Nat
deriving DecidableEq

/-- Python `a <= b` on dates (lexicographic on year, month, day). -/
def Date.le (a b : Date) : Bool :=
  decide (a.year < b.year ∨ (a.year = b.year ∧
    (a.month < b.month ∨ (a.month = b.month ∧ a.day ≤ b.day))))

/-- Python `a < b` on dates. -/
def Date.lt (a b : Date) : Bool :=
  decide (a.year < b.year ∨ (a.year = b.year ∧
    (a.month < b.month ∨ (a.month = b.month ∧ a.day < b.day))))

/-- Python `datetime.date.max` (9999-12-31), used by the contribution-rule
overlap filter as the stand-in for an open-ended candidate interval. -/
def dateMax : Date := ⟨9999, 12, 31⟩

/-- Leap-year test as in Python's `calendar.isleap`. -/
def isLeapYear (y : Nat) : Bool :=
  y % 4 == 0 && (y % 100 != 0 || y % 400 == 0)

/-- Number of days in a month, as `calendar.monthrange(year, month)[1]`.
Only meaningful for `1 ≤ month ≤ 12` (Python raises outside that range). -/
def monthrangeDays (year month : Nat) : Nat :=
  if month == 2 then (if isLeapYear year then 29 else 28)
  else if month == 4 || month == 6 || month == 9 || month == 11 then 30
  else 31

/-- `DateUtils.get_month_end_date` from `stokvel/utils.py`. -/
def get_month_end_date (year month : Nat) : Date :=
  ⟨year, month, monthrangeDays year month⟩

/-- `DateUtils.get_due_date_for_month` from `stokvel/utils.py`:
due day 31 is the sentinel for "last day of month", otherwise the due day
is clamped with `min(due_day, last_day)`. -/
def get_due_date_for_month (year month due_day : Nat) : Date :=
  if due_day == 31 then get_month_end_date year month
  else ⟨year, month, min due_day (monthrangeDays year month)⟩

/-- The `calculation_method` choices of `PenaltyRule`. -/
inductive CalcMethod
  | fixed
  | percentage
  | daily
  | tiered
deriving DecidableEq

/-- The `penalty_type` choices of `PenaltyRule`. -/
inductive PenaltyType
  | late_payment
  | insufficient_payment
  | no_payment
  | missed_meeting
  | early_exit
  | breach_of_rules
deriving DecidableEq

/-- The `contribution_type` choices of `ContributionRule`. -/
inductive ContributionType
  | regular
  | registration
  | special
  | emergency
deriving DecidableEq

/-- `PenaltyRule` record from `stokvel/models.py` (fields read by the
modelled logic; free-text metadata omitted). -/
structure PenaltyRule where
  stokvel : Nat
  penalty_type : PenaltyType
  calculation_method : CalcMethod
  amount : ℚ
  grace_period_days : ℤ
  maximum_amount : Option ℚ
  effective_from : Date
  effective_until : Option Date
  is_active : Bool
deriving DecidableEq

/-- `PenaltyRule.calculate_penalty` from `stokvel/models.py`. The cap test
mirrors Python truthiness: `if self.maximum_amount and penalty > self.maximum_amount`
skips the clamp both when the cap is `None` and when it is the (falsy)
decimal zero. -/
def calculate_penalty (r : PenaltyRule) (base_amount : ℚ) (days_late : ℤ) : ℚ :=
  if days_late ≤ r.grace_period_days then 0
  else
    let penalty :=
      match r.calculation_method with
      | .fixed => r.amount
      | .percentage => base_amount * (r.amount / 100)
      | .daily => r.amount * ((days_late : ℚ) - (r.grace_period_days : ℚ))
      | .tiered => r.amount
    match r.maximum_amount with
    | some m => if m ≠ 0 ∧ m < penalty then m else penalty
    | none => penalty

/-- `PenaltyRule.is_active_for_date` from `stokvel/models.py`. -/
def PenaltyRule.is_active_for_date (r : PenaltyRule) (target_date : Date) : Bool :=
  if !r.is_active then false
  else if Date.lt target_date r.effective_from then false
  else
    match r.effective_until with
    | some u => if Date.lt u target_date then false else true
    | none => true

/-- `ContributionRule` record from `stokvel/models.py` (fields read by the
modelled logic; name, frequency and description metadata omitted). -/
structure ContributionRule where
  stokvel : Nat
  contribution_type : ContributionType
  amount : ℚ
  effective_from : Date
  effective_until : Option Date
  is_active : Bool
  is_mandatory : Bool
deriving DecidableEq

/-- Outcome of `ContributionRuleService.create_contribution_rule`:
either the new rule table, or one of the raised exceptions.
`queryValueError` models Django's `ValueError: Cannot use None as a query value`,
raised while building the overlap queryset when `effective_until__gte`
receives `None`. -/
inductive CreateRuleResult
  | ok (db : List ContributionRule)
  | validationAmountError
  | overlappingRuleError
  | queryValueError
deriving DecidableEq

/-- `ContributionRuleService.create_contribution_rule` from
`stokvel/services.py`. The overlap queryset is
`effective_from__lte = (effective_until or date.max)` and
`effective_until__gte = (effective_from if effective_until else None)`;
when the candidate has no `effective_until`, the second lookup receives
`None` and Django raises `ValueError` before any row is examined. Existing
rows whose `effective_until` is NULL never satisfy the `__gte` lookup. -/
def create_contribution_rule (db : List ContributionRule) (stokvel : Nat)
    (contribution_type : ContributionType) (amount : ℚ)
    (effective_from : Date) (effective_until : Option Date)
    (is_mandatory : Bool) : CreateRuleResult :=
  if amount ≤ 0 then .validationAmountError
  else
    match effective_until with
    | none => .queryValueError
    | some u =>
      let overlapping := db.filter (fun r =>
        r.stokvel == stokvel && r.contribution_type == contribution_type &&
        r.is_active && Date.le r.effective_from u &&
        (match r.effective_until with
         | some ru => Date.le effective_from ru
         | none => false))
      if overlapping.isEmpty then
        .ok (db ++ [⟨stokvel, contribution_type, amount, effective_from,
          effective_until, true, is_mandatory⟩])
      else .overlappingRuleError

/-- First queryset of `PenaltyRuleService.get_applicable_penalty_rules`:
`effective_from__lte = as_of_date` and `effective_until__gte = as_of_date`
(rows with NULL `effective_until` are excluded by the `__gte` lookup). -/
def penMatchesClosed (s : Nat) (pt : PenaltyType) (asOf : Date)
    (r : PenaltyRule) : Bool :=
  r.stokvel == s && r.penalty_type == pt && r.is_active &&
  Date.le r.effective_from asOf &&
  (match r.effective_until with
   | some u => Date.le asOf u
   | none => false)

/-- Second queryset of `PenaltyRuleService.get_applicable_penalty_rules`:
`effective_from__lte = as_of_date` and `effective_until__isnull = True`. -/
def penMatchesOpen (s : Nat) (pt : PenaltyType) (asOf : Date)
    (r : PenaltyRule) : Bool :=
  r.stokvel == s && r.penalty_type == pt && r.is_active &&
  Date.le r.effective_from asOf &&
  (match r.effective_until with
   | some _ => false
   | none => true)

/-- `PenaltyRuleService.get_applicable_penalty_rules` from
`stokvel/services.py`: `closed_query.first() or open_query.first()`.
`PenaltyRule.Meta.ordering` is `(stokvel, penalty_type)`, constant over the
filtered rows, so `.first()` yields the first row in table order. -/
def get_applicable_penalty_rules (db : List PenaltyRule) (s : Nat)
    (pt : PenaltyType) (asOf : Date) : Option PenaltyRule :=
  match (db.filter (penMatchesClosed s pt asOf)).head? with
  | some r => some r
  | none => (db.filter (penMatchesOpen s pt asOf)).head?

/-- Outcome of `PenaltyCalculator.calculate_insufficient_payment_penalty`:
the returned `(penalty, rule)` pair, or the `NameError` the source raises.
`stokvel/utils.py` imports only `Stokvel, ContributionRule, PenaltyRule`
from `.models` and never binds the name `models`, yet the penalty-rule
queryset is built with `models.Q(...)`; evaluating that expression raises
`NameError: name 'models' is not defined`. -/
inductive InsufficientPenaltyResult
  | ok (penalty : ℚ) (rule : Option PenaltyRule)
  | nameError
deriving DecidableEq

/-- `PenaltyCalculator.calculate_insufficient_payment_penalty` from
`stokvel/utils.py`. A covering payment returns `(0, None)` through the
early guard. Otherwise the source computes the shortage and builds the
penalty-rule queryset: the argument of its second `.filter` call is
`models.Q(effective_until__gte=payment_date) | models.Q(effective_until__isnull=True)`
with `models` unbound, so the call raises `NameError` before any rule is
fetched — the rule lookup, the `calculate_penalty` call on the shortage
and the final return are unreachable for short payments, whatever the
rule table contains. -/
def calculate_insufficient_payment_penalty (db : List PenaltyRule) (s : Nat)
    (paid_amount expected_amount : ℚ) (payment_date : Date) :
    InsufficientPenaltyResult :=
  if expected_amount ≤ paid_amount then .ok 0 none
  else .nameError

/-- The `verification_status` choices of `Contribution`. -/
inductive VerifStatus
  | pending
  | verified
  | rejected
  | reversed
deriving DecidableEq

/-- A `Contribution` row as read by the `PaymentPeriod` aggregates. -/
structure ContributionRec where
  amount : ℚ
  verification_status : VerifStatus
deriving DecidableEq

/-- A `PaymentPeriod` from `finances/models.py` together with the related
rows its aggregate properties read: the active-member count of its stokvel
and its contribution set. -/
structure PaymentPeriod where
  expected_amount_per_member : ℚ
  active_member_count : Nat
  contributions : List ContributionRec
deriving DecidableEq

/-- `PaymentPeriod.total_expected_amount`. -/
def PaymentPeriod.total_expected_amount (p : PaymentPeriod) : ℚ :=
  p.expected_amount_per_member * (p.active_member_count : ℚ)

/-- `PaymentPeriod.total_received_amount`: sum of the amounts of verified
contributions (the SQL `Sum` of no rows defaults to 0 via `or Decimal(0)`). -/
def PaymentPeriod.total_received_amount (p : PaymentPeriod) : ℚ :=
  ((p.contributions.filter
      (fun c => c.verification_status == VerifStatus.verified)).map
    (fun c => c.amount)).sum

/-- `PaymentPeriod.collection_percentage`. -/
def PaymentPeriod.collection_percentage (p : PaymentPeriod) : ℚ :=
  if 0 < p.total_expected_amount then
    p.total_received_amount / p.total_expected_amount * 100
  else 0

/-- Python `round(x, 2)` on exact decimals: banker's rounding (half to
even) at two decimal places. -/
def roundHalfEven2 (x : ℚ) : ℚ :=
  let y := x * 100
  let f : ℤ := ⌊y⌋
  let frac := y - (f : ℚ)
  let n : ℤ :=
    if frac < 1/2 then f
    else if 1/2 < frac then f + 1
    else if f % 2 = 0 then f else f + 1
  (n : ℚ) / 100

/-- Sum of expected amounts over the periods in range, as computed by
`StokvelReportUtils.calculate_contribution_statistics`. -/
def totalExpected (periods : List PaymentPeriod) : ℚ :=
  (periods.map PaymentPeriod.total_expected_amount).sum

/-- Sum of received amounts over the periods in range. -/
def totalReceived (periods : List PaymentPeriod) : ℚ :=
  (periods.map PaymentPeriod.total_received_amount).sum

/-- The numeric fields of the dict returned by
`StokvelReportUtils.calculate_contribution_statistics`. -/
structure ContributionStats where
  total_expected : ℚ
  total_received : ℚ
  total_outstanding : ℚ
  collection_rate : ℚ
deriving DecidableEq

/-- `StokvelReportUtils.calculate_contribution_statistics` from
`stokvel/utils.py`, restricted to the modelled numeric fields. -/
def calculate_contribution_statistics (periods : List PaymentPeriod) :
    ContributionStats :=
  { total_expected := totalExpected periods
    total_received := totalReceived periods
    total_outstanding := totalExpected periods - totalReceived periods
    collection_rate :=
      if 0 < totalExpected periods then
        roundHalfEven2 (totalReceived periods / totalExpected periods * 100)
      else 0 }

/-- `StokvelBankAccount` from `stokvel/models.py` (fields read by the
modelled logic). `pk` is the auto primary key; rows are kept in pk order. -/
structure BankAccount where
  pk : Nat
  stokvel : Nat
  is_primary : Bool
  is_active : Bool
deriving DecidableEq

/-- `StokvelBankAccount.save` from `stokvel/models.py`: when the saved
instance is primary, demote every other primary account of the same
stokvel, then write the instance (update a row of the same pk, otherwise
insert). -/
def saveAccount (db : List BankAccount) (a : BankAccount) : List BankAccount :=
  let db1 :=
    if a.is_primary then
      db.map (fun r =>
        if r.stokvel == a.stokvel && r.is_primary && r.pk != a.pk then
          { r with is_primary := false }
        else r)
    else db
  if db1.any (fun r => r.pk == a.pk) then
    db1.map (fun r => if r.pk == a.pk then a else r)
  else db1 ++ [a]

/-- `BankAccountService.set_primary_account` from `stokvel/services.py`:
bulk-demote the other primary accounts of the stokvel, then flag the given
account and save it. -/
def set_primary_account (db : List BankAccount) (a : BankAccount) :
    List BankAccount :=
  let db1 := db.map (fun r =>
    if r.stokvel == a.stokvel && r.is_primary && r.pk != a.pk then
      { r with is_primary := false }
    else r)
  saveAccount db1 { a with is_primary := true }

/-- `BankAccountService.deactivate_account` from `stokvel/services.py`.
The promotion block runs `other_accounts.first().is_primary = True` and
then `other_accounts.first().save()`: each `.first()` call re-evaluates
the queryset and returns a fresh instance, so the flag set on the first
instance is discarded and the second, unmodified instance is what gets
saved. The model therefore saves the fetched row unchanged. Afterwards the
account itself is deactivated, un-flagged and saved. -/
def deactivate_account (db : List BankAccount) (a : BankAccount) :
    List BankAccount :=
  let db1 :=
    if a.is_primary then
      match (db.filter (fun r =>
          r.stokvel == a.stokvel && r.is_active && r.pk != a.pk)).head? with
      | some other => saveAccount db other
      | none => db
    else db
  saveAccount db1 { a with is_active := false, is_primary := false }

/-- Number of active primary bank accounts of a stokvel; the claimed
invariant is that this is exactly 1 whenever the stokvel has an active
account. -/
def countPrimaryActive (db : List BankAccount) (s : Nat) : Nat :=
  (db.filter (fun r => r.stokvel == s && r.is_active && r.is_primary)).length

/-- Rule A of the spec's overlap scenario: category `regular`,
effective `[2025-01-01, 2025-06-30]`. -/
def ruleA : ContributionRule :=
  ⟨1, .regular, 500, ⟨2025, 1, 1⟩, some ⟨2025, 6, 30⟩, true, true⟩

/-- Concrete daily penalty rule of the spec's scenario: amount 500,
grace 5 days, no cap. -/
def dailyRule : PenaltyRule :=
  ⟨1, .late_payment, .daily, 500, 5, none, ⟨2025, 1, 1⟩, none, true⟩

/-- The same daily rule with `maximum_amount = 1000`. -/
def dailyRuleCap : PenaltyRule :=
  ⟨1, .late_payment, .daily, 500, 5, some 1000, ⟨2025, 1, 1⟩, none, true⟩

/-- The same daily rule with the falsy cap `maximum_amount = 0`. -/
def dailyRuleCap0 : PenaltyRule :=
  ⟨1, .late_payment, .daily, 500, 5, some 0, ⟨2025, 1, 1⟩, none, true⟩

/-- Fixed-amount rule with the falsy cap `maximum_amount = 0`. -/
def fixedRuleCap0 : PenaltyRule :=
  ⟨1, .late_payment, .fixed, 500, 0, some 0, ⟨2025, 1, 1⟩, none, true⟩

/-- Closed-interval late-payment rule `[2020-01-01, 2030-01-01]`. -/
def ruleX : PenaltyRule :=
  ⟨1, .late_payment, .fixed, 50, 0, none, ⟨2020, 1, 1⟩, some ⟨2030, 1, 1⟩, true⟩

/-- Open-ended late-payment rule effective from 2025-01-01, i.e. with the
latest `effective_from` among the rules matching 2026-06-01. -/
def ruleY : PenaltyRule :=
  ⟨1, .late_payment, .fixed, 75, 0, none, ⟨2025, 1, 1⟩, none, true⟩

/-- Insufficient-payment rule with a zero grace period. -/
def shortageRule : PenaltyRule :=
  ⟨1, .insufficient_payment, .percentage, 10, 0, none, ⟨2025, 1, 1⟩, none, true⟩

/-- Payment period with a positive expected total and no verified
contributions. -/
def emptyPeriod : PaymentPeriod :=
  ⟨200, 1, []⟩

/-- Payment period with one member expected and one verified R200
contribution. -/
def paidPeriod : PaymentPeriod :=
  ⟨200, 1, [⟨200, .verified⟩]⟩

/-- Primary active bank account of stokvel 1. -/
def acctA : BankAccount := ⟨1, 1, true, true⟩

/-- Second, non-primary active bank account of stokvel 1. -/
def acctB : BankAccount := ⟨2, 1, false, true⟩

/-! ## Helper lemmas -/

/-- Date comparison: `Date.lt a b` is false exactly when `Date.le b a`. -/
theorem Date.lt_false_iff {a b : Date} : Date.lt a b = false ↔ Date.le b a = true := by
  simp only [Date.lt, Date.le, decide_eq_false_iff_not, decide_eq_true_eq]
  omega

/-- Grace-period absorption in `calculate_penalty`, shared by several
claims: at or under the grace period the penalty is zero. -/
theorem calc_penalty_grace (r : PenaltyRule) (base : ℚ) (d : ℤ)
    (h : d ≤ r.grace_period_days) : calculate_penalty r base d = 0 := by
  unfold calculate_penalty
  rw [if_pos h]

/-! ## Claim C2 -/

/-- Claim C2 (confirmed): for every penalty rule, base amount and number of
days late with `days_late <= grace_period_days`, `calculate_penalty`
returns 0 regardless of the calculation method. -/
theorem C2_grace_absorbs (r : PenaltyRule) (base : ℚ) (d : ℤ)
    (h : d ≤ r.grace_period_days) : calculate_penalty r base d = 0 :=
  calc_penalty_grace r base d h

/-- Witness for C2 at a concrete rule: the daily R500 rule with a 5-day
grace period charges nothing for a payment 3 days late. -/
theorem C2_grace_absorbs_witness :
    (3 : ℤ) ≤ dailyRule.grace_period_days ∧ calculate_penalty dailyRule 100 3 = 0 :=
  ⟨by decide, C2_grace_absorbs dailyRule 100 3 (by decide)⟩

/-! ## Claim C3 -/

/-- Claim C3 counterexample: on the daily R500 rule with grace 5 and the
set cap `maximum_amount = 0`, a payment 10 days late is charged 2500 — the
cap is set yet the result is not clamped to it (Python truthiness skips a
zero cap), so the claim's clamping clause fails. -/
theorem C3_cap_zero_counterexample :
    calculate_penalty dailyRuleCap0 100 10 = 2500 ∧
    dailyRuleCap0.maximum_amount = some 0 ∧
    ¬ calculate_penalty dailyRuleCap0 100 10 ≤ 0 := by
  have h : calculate_penalty dailyRuleCap0 100 10 = 2500 := by
    norm_num [calculate_penalty, dailyRuleCap0]
  exact ⟨h, rfl, by rw [h]; norm_num⟩

/-- Claim C3 (amended): past the grace period, a `daily` rule charges
`amount × (days_late − grace_period_days)`, clamped to `maximum_amount`
when the cap is set and nonzero (an unset or zero cap leaves the accrual
unclamped); in particular the R500/grace-5 rule charges 0 at 3 days late,
2500 at 10 days late, and 1000 at 10 days late under a cap of 1000. -/
theorem C3_daily_accrual :
    (∀ (r : PenaltyRule) (base : ℚ) (d : ℤ), r.calculation_method = .daily →
      r.maximum_amount = none → r.grace_period_days < d →
      calculate_penalty r base d =
        r.amount * ((d : ℚ) - (r.grace_period_days : ℚ))) ∧
    (∀ (r : PenaltyRule) (m base : ℚ) (d : ℤ), r.calculation_method = .daily →
      r.maximum_amount = some m → m ≠ 0 → r.grace_period_days < d →
      calculate_penalty r base d =
        min (r.amount * ((d : ℚ) - (r.grace_period_days : ℚ))) m) ∧
    calculate_penalty dailyRule 100 3 = 0 ∧
    calculate_penalty dailyRule 100 10 = 2500 ∧
    calculate_penalty dailyRuleCap 100 10 = 1000 := by
  refine ⟨?_, ?_, by norm_num [calculate_penalty, dailyRule],
    by norm_num [calculate_penalty, dailyRule],
    by norm_num [calculate_penalty, dailyRuleCap]⟩
  · intro r base d hm hmax hd
    unfold calculate_penalty
    rw [if_neg (not_le.mpr hd), hm, hmax]
  · intro r m base d hm hmax hm0 hd
    unfold calculate_penalty
    rw [if_neg (not_le.mpr hd), hm, hmax]
    dsimp only
    rcases lt_or_le m (r.amount * ((d : ℚ) - (r.grace_period_days : ℚ))) with h1 | h1
    · rw [if_pos ⟨hm0, h1⟩, min_eq_right h1.le]
    · rw [if_neg fun hc => absurd hc.2 (not_lt.mpr h1), min_eq_left h1]

/-- Witness for C3's universally quantified clamped clause, instantiated
at the capped daily rule and a payment 12 days late. -/
theorem C3_daily_accrual_witness :
    calculate_penalty dailyRuleCap 100 12 =
      min (dailyRuleCap.amount *
        (((12 : ℤ) : ℚ) - (dailyRuleCap.grace_period_days : ℚ))) 1000 :=
  C3_daily_accrual.2.1 dailyRuleCap 1000 100 12 rfl rfl (by norm_num) (by decide)

/-! ## Claim C4 -/

/-- Claim C4 counterexample: the fixed R500 rule with the set cap
`maximum_amount = 0` charges 500 for a payment 1 day late, exceeding the
set maximum — a zero cap is falsy in Python and is never applied. -/
theorem C4_cap_zero_counterexample :
    fixedRuleCap0.maximum_amount = some 0 ∧
    calculate_penalty fixedRuleCap0 100 1 = 500 ∧
    ¬ calculate_penalty fixedRuleCap0 100 1 ≤ 0 := by
  have h : calculate_penalty fixedRuleCap0 100 1 = 500 := by
    norm_num [calculate_penalty, fixedRuleCap0]
  exact ⟨rfl, h, by rw [h]; norm_num⟩

/-- Claim C4 (amended): for every penalty rule whose `maximum_amount` is
set and positive, and for every base amount and days late, the computed
penalty never exceeds `maximum_amount`. -/
theorem C4_cap_bounds (r : PenaltyRule) (m base : ℚ) (d : ℤ)
    (hmax : r.maximum_amount = some m) (hm : 0 < m) :
    calculate_penalty r base d ≤ m := by
  unfold calculate_penalty
  split
  · exact hm.le
  · rw [hmax]
    dsimp only
    split_ifs with h
    · exact le_refl m
    · push_neg at h
      exact h hm.ne'

/-- Witness for C4 at the capped daily rule: 100 days late the penalty is
still at most the cap of 1000. -/
theorem C4_cap_bounds_witness :
    calculate_penalty dailyRuleCap 100 100 ≤ 1000 :=
  C4_cap_bounds dailyRuleCap 1000 100 100 rfl (by norm_num)

/-! ## Claim C9 -/

/-- Claim C9 (confirmed): for every base amount and days late, a `tiered`
rule computes exactly the same penalty as the otherwise-identical `fixed`
rule — the tiered branch falls through to the flat rule amount. -/
theorem C9_tiered_equals_fixed (s : Nat) (pt : PenaltyType) (amt : ℚ)
    (gp : ℤ) (mx : Option ℚ) (ef : Date) (eu : Option Date) (act : Bool)
    (base : ℚ) (d : ℤ) :
    calculate_penalty ⟨s, pt, .tiered, amt, gp, mx, ef, eu, act⟩ base d =
    calculate_penalty ⟨s, pt, .fixed, amt, gp, mx, ef, eu, act⟩ base d := rfl

/-! ## Claim C6 -/

/-- Every month has at most 31 days under `calendar.monthrange`. -/
theorem monthrangeDays_le_31 (y m : Nat) : monthrangeDays y m ≤ 31 := by
  unfold monthrangeDays
  split_ifs <;> omega

/-- Claim C6 (confirmed): `get_due_date_for_month(y, m, 31)` equals
`get_month_end_date(y, m)` for every year and month, including leap and
non-leap Februaries; any due day at or past the month length is clamped to
the month end, and a valid due day short of the month length is used as
the day. -/
theorem C6_due_date_clamping :
    (∀ y m : Nat, get_due_date_for_month y m 31 = get_month_end_date y m) ∧
    get_due_date_for_month 2024 2 31 = ⟨2024, 2, 29⟩ ∧
    get_due_date_for_month 2023 2 31 = ⟨2023, 2, 28⟩ ∧
    (∀ y m d : Nat, monthrangeDays y m ≤ d →
      get_due_date_for_month y m d = get_month_end_date y m) ∧
    (∀ y m d : Nat, 1 ≤ d → d < monthrangeDays y m →
      (get_due_date_for_month y m d).day = d) := by
  refine ⟨fun y m => rfl, by decide, by decide, ?_, ?_⟩
  · intro y m d h
    unfold get_due_date_for_month
    split
    · rfl
    · unfold get_month_end_date
      rw [Nat.min_eq_right h]
  · intro y m d h1 h2
    have h31 : monthrangeDays y m ≤ 31 := monthrangeDays_le_31 y m
    unfold get_due_date_for_month
    rw [if_neg (by simp only [beq_iff_eq]; omega)]
    dsimp only
    rw [Nat.min_eq_left h2.le]

/-- Witness for C6's clamping clauses: in April 2025 a due day of 15 is
kept, and a due day of 30 (the month length) resolves to the month end. -/
theorem C6_due_date_clamping_witness :
    (get_due_date_for_month 2025 4 15).day = 15 :=
  C6_due_date_clamping.2.2.2.2 2025 4 15 (by decide) (by decide)

/-! ## Claim C1 -/

/-- Claim C1 (code bug): creating an open-ended contribution rule always
fails. With Rule A `[2025-01-01, 2025-06-30]` present — or with no rules at
all — creating Rule B `[2025-07-01, null]` raises Django's
`ValueError: Cannot use None as a query value` (the overlap filter passes
`None` to `effective_until__gte`) instead of succeeding as specified.
Rule C `[2025-05-01, 2025-08-01]` is rejected as overlapping Rule A. -/
theorem C1_overlap_check_crashes :
    create_contribution_rule [] 1 .regular 500 ⟨2025, 7, 1⟩ none true =
      .queryValueError ∧
    create_contribution_rule [ruleA] 1 .regular 500 ⟨2025, 7, 1⟩ none true =
      .queryValueError ∧
    create_contribution_rule [ruleA] 1 .regular 500 ⟨2025, 5, 1⟩
        (some ⟨2025, 8, 1⟩) true = .overlappingRuleError := by
  refine ⟨by norm_num [create_contribution_rule], by norm_num [create_contribution_rule],
    by norm_num [create_contribution_rule, ruleA, Date.le, List.filter]⟩

/-! ## Claim C5 -/

/-- Soundness of the first (closed-interval) queryset of the penalty-rule
resolver: any row it accepts is an active matching rule for the date. -/
theorem penMatchesClosed_sound {s : Nat} {pt : PenaltyType} {asOf : Date}
    {r : PenaltyRule} (h : penMatchesClosed s pt asOf r = true) :
    r.stokvel = s ∧ r.penalty_type = pt ∧ r.is_active_for_date asOf = true := by
  simp only [penMatchesClosed, Bool.and_eq_true, beq_iff_eq] at h
  obtain ⟨⟨⟨⟨hs, hp⟩, ha⟩, hf⟩, hu⟩ := h
  refine ⟨hs, hp, ?_⟩
  cases hequ : r.effective_until with
  | none => rw [hequ] at hu; simp at hu
  | some u =>
    rw [hequ] at hu
    simp only [PenaltyRule.is_active_for_date, ha, Bool.not_true, hequ,
      Date.lt_false_iff.mpr hf, Date.lt_false_iff.mpr hu]
    simp

/-- Soundness of the second (open-ended) queryset of the penalty-rule
resolver. -/
theorem penMatchesOpen_sound {s : Nat} {pt : PenaltyType} {asOf : Date}
    {r : PenaltyRule} (h : penMatchesOpen s pt asOf r = true) :
    r.stokvel = s ∧ r.penalty_type = pt ∧ r.is_active_for_date asOf = true := by
  simp only [penMatchesOpen, Bool.and_eq_true, beq_iff_eq] at h
  obtain ⟨⟨⟨⟨hs, hp⟩, ha⟩, hf⟩, hu⟩ := h
  refine ⟨hs, hp, ?_⟩
  cases hequ : r.effective_until with
  | some u => rw [hequ] at hu; simp at hu
  | none =>
    simp only [PenaltyRule.is_active_for_date, ha, Bool.not_true, hequ,
      Date.lt_false_iff.mpr hf]
    simp

/-- Completeness: every rule that is active for the date and matches the
stokvel and category is accepted by one of the resolver's two querysets. -/
theorem penMatches_of_active {s : Nat} {pt : PenaltyType} {asOf : Date}
    {r : PenaltyRule} (hs : r.stokvel = s) (hp : r.penalty_type = pt)
    (h : r.is_active_for_date asOf = true) :
    penMatchesClosed s pt asOf r = true ∨ penMatchesOpen s pt asOf r = true := by
  rw [PenaltyRule.is_active_for_date] at h
  by_cases ha : r.is_active = true
  case neg =>
    rw [Bool.not_eq_true] at ha
    rw [ha] at h
    simp at h
  case pos =>
  rw [ha] at h
  simp only [Bool.not_true, Bool.false_eq_true, if_false] at h
  by_cases hlt : Date.lt asOf r.effective_from = true
  · rw [hlt] at h; simp at h
  · rw [Bool.not_eq_true] at hlt
    rw [hlt] at h
    simp only [Bool.false_eq_true, if_false] at h
    have hf : Date.le r.effective_from asOf = true := Date.lt_false_iff.mp hlt
    cases hequ : r.effective_until with
    | none =>
      right
      simp [penMatchesOpen, hequ, hs, hp, ha, hf]
    | some u =>
      rw [hequ] at h
      dsimp only at h
      by_cases hu : Date.lt u asOf = true
      · rw [hu] at h; simp at h
      · rw [Bool.not_eq_true] at hu
        left
        simp [penMatchesClosed, hequ, hs, hp, ha, hf, Date.lt_false_iff.mp hu]

/-- Claim C5 counterexample: with the closed rule X `[2020-01-01,
2030-01-01]` and the open rule Y `[2025-01-01, null]` both active and
matching 2026-06-01, the resolver returns X even though Y has the strictly
later `effective_from` — the first queryset (non-null `effective_until`)
wins regardless of `effective_from`, and `PenaltyRule.Meta.ordering` does
not order by `effective_from` at all. -/
theorem C5_latest_from_counterexample :
    get_applicable_penalty_rules [ruleX, ruleY] 1 .late_payment ⟨2026, 6, 1⟩ =
      some ruleX ∧
    ruleY.stokvel = 1 ∧ ruleY.penalty_type = .late_payment ∧
    ruleY.is_active_for_date ⟨2026, 6, 1⟩ = true ∧
    Date.lt ruleX.effective_from ruleY.effective_from = true := by
  refine ⟨rfl, rfl, rfl, by decide, by decide⟩

/-- Claim C5 (amended): `get_applicable_penalty_rules` returns a rule
satisfying `is_active`, `effective_from <= asOf` and (`effective_until`
null or `>= asOf`) whenever one exists, and `None` otherwise; when several
rules match, the returned one is a match (rules with a non-null
`effective_until` taking precedence) but not necessarily the one with the
latest `effective_from`. -/
theorem C5_resolver_matches (db : List PenaltyRule) (s : Nat)
    (pt : PenaltyType) (asOf : Date) :
    (∀ r, get_applicable_penalty_rules db s pt asOf = some r →
      r ∈ db ∧ r.stokvel = s ∧ r.penalty_type = pt ∧
      r.is_active_for_date asOf = true) ∧
    (get_applicable_penalty_rules db s pt asOf = none →
      ∀ r ∈ db, r.stokvel = s → r.penalty_type = pt →
      r.is_active_for_date asOf = false) := by
  constructor
  · intro r hr
    unfold get_applicable_penalty_rules at hr
    cases hc : (db.filter (penMatchesClosed s pt asOf)) with
    | cons x xs =>
      rw [hc] at hr
      dsimp only [List.head?] at hr
      injection hr with hr
      subst hr
      have hx : x ∈ db.filter (penMatchesClosed s pt asOf) := by
        rw [hc]; exact List.mem_cons_self x xs
      obtain ⟨hmem, hpred⟩ := List.mem_filter.mp hx
      obtain ⟨h1, h2, h3⟩ := penMatchesClosed_sound hpred
      exact ⟨hmem, h1, h2, h3⟩
    | nil =>
      rw [hc] at hr
      dsimp only [List.head?] at hr
      cases ho : (db.filter (penMatchesOpen s pt asOf)) with
      | nil => rw [ho] at hr; simp at hr
      | cons x xs =>
        rw [ho] at hr
        dsimp only [List.head?] at hr
        injection hr with hr
        subst hr
        have hx : x ∈ db.filter (penMatchesOpen s pt asOf) := by
          rw [ho]; exact List.mem_cons_self x xs
        obtain ⟨hmem, hpred⟩ := List.mem_filter.mp hx
        obtain ⟨h1, h2, h3⟩ := penMatchesOpen_sound hpred
        exact ⟨hmem, h1, h2, h3⟩
  · intro hnone r hmem hs hp
    cases hb : r.is_active_for_date asOf with
    | false => rfl
    | true =>
      exfalso
      unfold get_applicable_penalty_rules at hnone
      rcases penMatches_of_active hs hp hb with hcl | hop
      · have hx : r ∈ db.filter (penMatchesClosed s pt asOf) :=
          List.mem_filter.mpr ⟨hmem, hcl⟩
        cases hc : (db.filter (penMatchesClosed s pt asOf)) with
        | nil => rw [hc] at hx; simp at hx
        | cons x xs => rw [hc] at hnone; simp at hnone
      · cases hc : (db.filter (penMatchesClosed s pt asOf)) with
        | cons x xs => rw [hc] at hnone; simp at hnone
        | nil =>
          rw [hc] at hnone
          dsimp only [List.head?] at hnone
          have hx : r ∈ db.filter (penMatchesOpen s pt asOf) :=
            List.mem_filter.mpr ⟨hmem, hop⟩
          cases ho : (db.filter (penMatchesOpen s pt asOf)) with
          | nil => rw [ho] at hx; simp at hx
          | cons x xs => rw [ho] at hnone; simp at hnone

/-- Witness for C5 on a one-rule table: the resolved rule is a member that
matches the stokvel, category and date. -/
theorem C5_resolver_matches_witness :
    ruleY ∈ [ruleY] ∧ ruleY.stokvel = 1 ∧
    ruleY.penalty_type = PenaltyType.late_payment ∧
    ruleY.is_active_for_date ⟨2026, 6, 1⟩ = true :=
  (C5_resolver_matches [ruleY] 1 .late_payment ⟨2026, 6, 1⟩).1 ruleY rfl

/-! ## Claim C7 -/

/-- Claim C7 counterexample: a period with a positive expected total
(one active member at R200) and no verified contributions has
`collection_percentage = 0` while `total_expected_amount ≠ 0`, so the
percentage is not 0 "exactly when" the expected total is 0. -/
theorem C7_zero_received_counterexample :
    emptyPeriod.collection_percentage = 0 ∧
    emptyPeriod.total_expected_amount ≠ 0 := by
  constructor
  · norm_num [PaymentPeriod.collection_percentage,
      PaymentPeriod.total_received_amount, PaymentPeriod.total_expected_amount,
      emptyPeriod]
  · norm_num [PaymentPeriod.total_expected_amount, emptyPeriod]

/-- Claim C7 (amended): `collection_percentage` is
`total_received / total_expected × 100` whenever the expected total is
positive and is 0 whenever the expected total is 0, with the division
guarded so it can never fault; the stokvel-level `collection_rate` of
`calculate_contribution_statistics` carries the same guard. -/
theorem C7_division_guard :
    (∀ p : PaymentPeriod, 0 < p.total_expected_amount →
      p.collection_percentage =
        p.total_received_amount / p.total_expected_amount * 100) ∧
    (∀ p : PaymentPeriod, p.total_expected_amount = 0 →
      p.collection_percentage = 0) ∧
    (∀ ps : List PaymentPeriod, 0 < totalExpected ps →
      (calculate_contribution_statistics ps).collection_rate =
        roundHalfEven2 (totalReceived ps / totalExpected ps * 100)) ∧
    (∀ ps : List PaymentPeriod, totalExpected ps = 0 →
      (calculate_contribution_statistics ps).collection_rate = 0) := by
  refine ⟨?_, ?_, ?_, ?_⟩
  · intro p hp
    unfold PaymentPeriod.collection_percentage
    rw [if_pos hp]
  · intro p hp
    unfold PaymentPeriod.collection_percentage
    rw [if_neg (by rw [hp]; exact lt_irrefl 0)]
  · intro ps hp
    unfold calculate_contribution_statistics
    dsimp only
    rw [if_pos hp]
  · intro ps hp
    unfold calculate_contribution_statistics
    dsimp only
    rw [if_neg (by rw [hp]; exact lt_irrefl 0)]

/-- Witness for C7 at a fully paid period: one member expected at R200 and
one verified R200 contribution give the guarded ratio. -/
theorem C7_division_guard_witness :
    (0 : ℚ) < paidPeriod.total_expected_amount ∧
    paidPeriod.collection_percentage =
      paidPeriod.total_received_amount / paidPeriod.total_expected_amount * 100 := by
  have h : (0 : ℚ) < paidPeriod.total_expected_amount := by
    norm_num [PaymentPeriod.total_expected_amount, paidPeriod]
  exact ⟨h, C7_division_guard.1 paidPeriod h⟩

/-! ## Claim C8 -/

/-- Claim C8 (code bug): a short payment never yields the claimed zero
penalty — `calculate_insufficient_payment_penalty` raises `NameError`
instead, because `stokvel/utils.py` builds the rule queryset with
`models.Q` while the name `models` is unbound. Concretely, even with the
zero-grace shortage rule stored, a R50 payment against a R100 expectation
raises, while a covering R100 payment still returns `(0, None)` through
the early guard. -/
theorem C8_insufficient_payment_name_error :
    calculate_insufficient_payment_penalty [shortageRule] 1 50 100
      ⟨2025, 2, 1⟩ = .nameError ∧
    calculate_insufficient_payment_penalty [shortageRule] 1 100 100
      ⟨2025, 2, 1⟩ = .ok 0 none := by
  constructor
  · norm_num [calculate_insufficient_payment_penalty]
  · norm_num [calculate_insufficient_payment_penalty]

/-! ## Claim C10 -/

/-- Claim C10 (code bug): deactivating the primary account A of a stokvel
that also has the active account B leaves the stokvel with zero primary
accounts among its active ones. The source's promotion block sets
`is_primary` on the instance returned by one `other_accounts.first()` call
but saves the fresh instance returned by a second call, so B is persisted
unchanged and no account is promoted. -/
theorem C10_deactivation_drops_primary :
    deactivate_account [acctA, acctB] acctA =
      [⟨1, 1, false, false⟩, ⟨2, 1, false, true⟩] ∧
    countPrimaryActive (deactivate_account [acctA, acctB] acctA) 1 = 0 ∧
    (deactivate_account [acctA, acctB] acctA).any
      (fun r => r.stokvel == 1 && r.is_active) = true := by
  refine ⟨rfl, rfl, rfl⟩
